import Mathlib

/-!
Verification development for the AMBetz Telegram-bot subscription lifecycle.

This file shallowly embeds the webhook reconciliation engine of the repository
(`src/webhook_handler.py`, `src/firestore_service.py`, `src/gcp_stripe_service.py`,
`src/webhook_validator.py`) and settles the frozen claims about it.

Modelling conventions:
- Python `datetime` values are modelled by `Timestamp`: the instant in epoch
  seconds together with a timezone-awareness flag.  `datetime.fromtimestamp(ts,
  tz=pytz.UTC)` keeps the epoch value and is aware; a naive
  `datetime.fromtimestamp(ts)` converts through the server-local offset and is
  not aware; `datetime.utcnow()` is naive with the UTC epoch value.
- The Firestore `subscriptions` collection is a list of `Subscription`
  documents keyed by `telegram_id`; a full-document `set` replaces the document
  with the same key.  Update-style writes (`doc_ref.update`) fail when no
  document exists, which the service methods surface as a `false` return.
- Stripe retrievals are reads of an explicit `Env` ledger; a failed retrieval
  (key absent) models the raised exception, which every caller catches.
- Python truthiness on optional strings ("" and absence are both falsy) is
  modelled by `strTruthy`.
- Monetary amounts are rationals; the ledger carries minor units as integers.
-/

namespace AMBetz

/-- A Python `datetime`: the instant in epoch seconds plus tz-awareness. -/
structure Timestamp where
  epochSec : Int
  tzAware : Bool
deriving Repr, DecidableEq

/-- `datetime.fromtimestamp(ts, tz=pytz.UTC)`: aware, keeps the epoch value. -/
def fromTimestampUTC (ts : Int) : Timestamp := ⟨ts, true⟩

/-- Naive `datetime.fromtimestamp(ts)`: converts through the server-local
offset and carries no timezone. -/
def fromTimestampNaive (localOffset ts : Int) : Timestamp := ⟨ts + localOffset, false⟩

/-- `datetime.utcnow()`: naive, UTC-valued. -/
def utcnowNaive (now : Int) : Timestamp := ⟨now, false⟩

/-- `datetime.now(pytz.UTC)`: aware. -/
def nowUTC (now : Int) : Timestamp := ⟨now, true⟩

/-- The `metadata` bag stored on a subscription document; the code uses the
keys `cancelled`, `cancelled_at` and `is_trial`. -/
structure SubMeta where
  cancelled : Option Bool := none
  cancelled_at : Option String := none
  is_trial : Option Bool := none
deriving Repr, DecidableEq

/-- One document of the `subscriptions` collection (fields per
`firestore_service.upsert_subscription`). -/
structure Subscription where
  telegram_id : Int
  start_date : Timestamp
  expiry_date : Timestamp
  subscription_type : String
  status : String
  updated_at : Timestamp
  stripe_customer_id : Option String := none
  stripe_session_id : Option String := none
  stripe_subscription_id : Option String := none
  amount_paid : Option Rat := none
  currency : Option String := none
  metadata : Option SubMeta := none
deriving Repr, DecidableEq

/-- The persistent store: the `subscriptions` collection plus the
`has_used_trial` markers kept on user documents. -/
structure Store where
  subs : List Subscription
  trialUsed : List Int := []
deriving Repr, DecidableEq

/-- Value of a decimal digit character, `none` otherwise. -/
def digitVal? (c : Char) : Option Nat :=
  if c.isDigit then some (c.toNat - 48) else none

/-- Read a non-empty all-digit character list as a natural number. -/
def natOfChars? (cs : List Char) : Option Nat :=
  if cs.isEmpty then none
  else cs.foldl (fun acc c => acc.bind (fun n => (digitVal? c).map (fun d => n * 10 + d)))
    (some 0)

/-- Python `int(s)` on a string: an optional sign followed by digits; `none`
models the raised `ValueError`.  (Python also tolerates surrounding
whitespace, which no value in this system carries.) -/
def pyInt? (s : String) : Option Int :=
  match s.data with
  | '-' :: cs => (natOfChars? cs).map (fun n => -(n : Int))
  | '+' :: cs => (natOfChars? cs).map (fun n => (n : Int))
  | cs => (natOfChars? cs).map (fun n => (n : Int))

/-- Python truthiness of an optional string: absent and `""` are falsy. -/
def strTruthy : Option String → Bool
  | none => false
  | some s => s ≠ ""

/-- Python truthiness of an optional metadata dict: absent and `{ }` are falsy. -/
def metaTruthy : Option SubMeta → Bool
  | none => false
  | some m => m ≠ {}

/-- `FirestoreService.get_subscription`: document lookup by `telegram_id`. -/
def get_subscription (st : Store) (tid : Int) : Option Subscription :=
  st.subs.find? (fun s => s.telegram_id == tid)

/-- A keyed `doc_ref.set(..., merge=False)`: full-replace the document with
this `telegram_id` (create it if absent). -/
def setDoc (st : Store) (tid : Int) (s : Subscription) : Store :=
  ⟨s :: st.subs.filter (fun x => x.telegram_id != tid), st.trialUsed⟩

/-- `FirestoreService.upsert_subscription`: build the replacement document —
`status` is always `'active'`, optional Stripe/payment fields are included only
when truthy (`amount_paid` only when not `None`) — and full-replace. -/
def upsert_subscription (st : Store) (now : Int) (telegram_id : Int)
    (start_date expiry_date : Timestamp) (subscription_type : String)
    (metadata : Option SubMeta)
    (stripe_customer_id stripe_session_id stripe_subscription_id : Option String)
    (amount_paid : Option Rat) (currency : Option String) : Store :=
  let newSub : Subscription := {
    telegram_id := telegram_id
    start_date := start_date
    expiry_date := expiry_date
    subscription_type := subscription_type
    status := "active"
    updated_at := utcnowNaive now
    stripe_customer_id := if strTruthy stripe_customer_id then stripe_customer_id else none
    stripe_session_id := if strTruthy stripe_session_id then stripe_session_id else none
    stripe_subscription_id := if strTruthy stripe_subscription_id then stripe_subscription_id else none
    amount_paid := amount_paid
    currency := if strTruthy currency then currency else none
    metadata := if metaTruthy metadata then metadata else none }
  setDoc st telegram_id newSub

/-- The per-document filter of `FirestoreService.find_expired_subscriptions`:
the query keeps `expiry_date < now` and `status == 'active'`; documents with a
truthy `stripe_subscription_id` are then skipped while the current time is
still inside the 5-minute grace window past `expiry_date`. -/
def findExpiredFilter (now : Int) (s : Subscription) : Bool :=
  s.expiry_date.epochSec < now && s.status == "active" &&
    (if strTruthy s.stripe_subscription_id
     then !(now < s.expiry_date.epochSec + 5 * 60)
     else true)

/-- `FirestoreService.find_expired_subscriptions` run at instant `now`;
`readOk = false` models a raised store error, which the method catches and
turns into an empty result list. -/
def find_expired_subscriptions (readOk : Bool) (st : Store) (now : Int) :
    List Subscription :=
  if readOk then st.subs.filter (findExpiredFilter now) else []

/-- `FirestoreService.mark_subscription_expired`: an update-style write that
sets `status := 'expired'`; it fails (returns `false`) when no document with
this `telegram_id` exists. -/
def mark_subscription_expired (st : Store) (now : Int) (tid : Int) : Bool × Store :=
  if st.subs.any (fun x => x.telegram_id == tid) then
    (true, ⟨st.subs.map (fun x =>
      if x.telegram_id == tid then
        { x with status := "expired", updated_at := utcnowNaive now }
      else x), st.trialUsed⟩)
  else (false, st)

/-- `FirestoreService.get_subscription_by_stripe_session`: first document whose
`stripe_session_id` field equals the given id. -/
def get_subscription_by_stripe_session (st : Store) (sid : String) :
    Option Subscription :=
  st.subs.find? (fun s => s.stripe_session_id == some sid)

/-- `FirestoreService.get_subscription_by_stripe_customer`: first document
whose `stripe_customer_id` field equals the given id. -/
def get_subscription_by_stripe_customer (st : Store) (cid : String) :
    Option Subscription :=
  st.subs.find? (fun s => s.stripe_customer_id == some cid)

/-- Modelled from the spec: `mark_trial_used` is called by the webhook handler
but is absent from `firestore_service.py`.  Per the spec's trial handling
("if previous state had `trial` flag, clear it to mark trial consumed") it
records on the user that their one free trial has been consumed. -/
def mark_trial_used (st : Store) (tid : Int) : Store :=
  ⟨st.subs, if st.trialUsed.contains tid then st.trialUsed else tid :: st.trialUsed⟩

/-- Modelled from the spec: `set_subscription_cancelled_expired` is called by
the subscription-deleted handler but is absent from `firestore_service.py`.
Per the spec it sets `status=expired` explicitly (never `active`) and records
the `cancelled=true` metadata together with the resolved expiry date and the
Stripe correlation ids; like the other update-style store writes it fails when
no document exists. -/
def set_subscription_cancelled_expired (st : Store) (now : Int) (tid : Int)
    (expiry : Timestamp) (md : SubMeta) (custId subId : Option String) :
    Bool × Store :=
  if st.subs.any (fun x => x.telegram_id == tid) then
    (true, ⟨st.subs.map (fun x =>
      if x.telegram_id == tid then
        { x with status := "expired", expiry_date := expiry, metadata := some md,
                 stripe_customer_id := custId, stripe_subscription_id := subId,
                 updated_at := utcnowNaive now }
      else x), st.trialUsed⟩)
  else (false, st)

/-- A Stripe customer object as seen through `stripe.Customer.retrieve`:
its id and its correlation metadata (string keys and values). -/
structure CustomerObj where
  id : String
  metadata : List (String × String)
deriving Repr, DecidableEq

/-- A Stripe subscription object (`stripe.Subscription.retrieve` /
`event.data.object`): status, owning customer and the billing-period bounds,
which may be absent on `subscription.deleted` payloads. -/
structure StripeSub where
  id : String
  customer : String
  status : String
  current_period_start : Option Int := none
  current_period_end : Option Int := none
deriving Repr, DecidableEq

/-- A Stripe invoice (`invoice.payment_succeeded` / `payment_failed` payload).
`lineSubscription` is the subscription id recoverable from the first line
item's `parent.subscription_item_details.subscription`, when the top-level
`subscription` field is absent. -/
structure Invoice where
  id : String
  customer : Option String := none
  subscription : Option String := none
  lineSubscription : Option String := none
  created : Int
  amount_paid : Int
  currency : String
deriving Repr, DecidableEq

/-- A checkout session (`checkout.session.completed` payload).  `metadata` is
a string-keyed dict; `[]` models both an absent and an empty (falsy) dict. -/
structure Session where
  id : String
  metadata : List (String × String)
  customer : Option String := none
  subscription : Option String := none
  amount_total : Int
  currency : String
deriving Repr, DecidableEq

/-- `dict.get(k)` on a string-keyed metadata dict. -/
def metaGet (m : List (String × String)) (k : String) : Option String :=
  (m.find? (fun p => p.1 == k)).map Prod.snd

/-- The external Stripe ledger: customers and subscriptions retrievable by id.
A missing key models a raised retrieval error. -/
structure Env where
  customers : List (String × CustomerObj) := []
  stripeSubs : List (String × StripeSub) := []
deriving Repr, DecidableEq

/-- `stripe.Customer.retrieve`. -/
def Env.retrieveCustomer (env : Env) (cid : String) : Option CustomerObj :=
  (env.customers.find? (fun p => p.1 == cid)).map Prod.snd

/-- `stripe.Subscription.retrieve`. -/
def Env.retrieveSub (env : Env) (sid : String) : Option StripeSub :=
  (env.stripeSubs.find? (fun p => p.1 == sid)).map Prod.snd

/-- Result of `WebhookValidator.validate_checkout_session`: either the
validated `telegram_id` (with the source tag), or an error plus the action. -/
inductive ValidationResult where
  | ok (telegram_id : Int) (source : String)
  | reject (error : String) (action : String)
deriving Repr, DecidableEq

/-- `WebhookValidator.validate_checkout_session`.  Checks, in source order:
metadata present and non-empty; `telegram_id` and `source` keys present;
`source == 'gcp-bot'`; `telegram_id` parses as a positive integer (Python
`int(...)`, modelled by `pyInt?`); and, when the session carries a
truthy `customer` reference, that the retrieved customer's own `telegram_id`
metadata is truthy and equal (as a string) to the session's. -/
def validate_checkout_session (env : Env) (session : Session) : ValidationResult :=
  if session.metadata.isEmpty then
    .reject "No metadata found in session" "reject_payment"
  else if (metaGet session.metadata "telegram_id").isNone then
    .reject "Missing required field: telegram_id" "reject_payment"
  else if (metaGet session.metadata "source").isNone then
    .reject "Missing required field: source" "reject_payment"
  else if metaGet session.metadata "source" ≠ some "gcp-bot" then
    .reject "Invalid source" "reject_payment"
  else
    match (metaGet session.metadata "telegram_id").bind pyInt? with
    | none => .reject "Invalid telegram_id: must be numeric" "reject_payment"
    | some tid =>
      if tid ≤ 0 then
        .reject "Invalid telegram_id: must be positive integer" "reject_payment"
      else if strTruthy session.customer then
        match session.customer with
        | none => .ok tid "gcp-bot"
        | some c =>
          match env.retrieveCustomer c with
          | none => .reject "Customer validation failed" "reject_payment"
          | some cust =>
            if ¬ strTruthy (metaGet cust.metadata "telegram_id") then
              .reject "Customer not created through bot (no telegram_id)" "reject_payment"
            else if metaGet cust.metadata "telegram_id" ≠ metaGet session.metadata "telegram_id" then
              .reject "Customer telegram_id mismatch" "reject_payment"
            else .ok tid "gcp-bot"
      else .ok tid "gcp-bot"

/-- The subscription-info dict returned by
`GCPStripeService.handle_successful_payment` (its keys, minus bookkeeping). -/
structure SubscriptionData where
  telegram_id : Int
  stripe_customer_id : Option String
  stripe_session_id : Option String
  status : String
  subscription_type : String
  start_date : Timestamp
  expiry_date : Timestamp
  amount_paid : Rat
  currency : String
  metadata : Option SubMeta := none
deriving Repr, DecidableEq

/-- `GCPStripeService.handle_successful_payment`.  Returns `none` when the
session metadata has no truthy `telegram_id`, when `int(telegram_id)` raises,
or when a referenced Stripe subscription cannot be retrieved or lacks its
period bounds (every raised error is caught and turned into `None`).  For
subscription sessions the period bounds are converted with a naive
`datetime.fromtimestamp` (server-local, not tz-aware); for one-time payments
the window starts at naive `utcnow` and lasts 1 minute in development mode,
30 days otherwise.  The amount is the session's minor-unit total divided
by 100.  The billing-period computation is split out as `checkout_period`. -/
def checkout_period (env : Env) (localOff now : Int) (devMode : Bool)
    (session : Session) : Option (Timestamp × Timestamp) :=
  if strTruthy session.subscription then
    match session.subscription with
    | none => some (utcnowNaive now, ⟨now + (if devMode then 60 else 30 * 86400), false⟩)
    | some sid =>
      match env.retrieveSub sid with
      | none => none
      | some sub =>
        match sub.current_period_start, sub.current_period_end with
        | some ps, some pe =>
          some (fromTimestampNaive localOff ps, fromTimestampNaive localOff pe)
        | _, _ => none
  else some (utcnowNaive now, ⟨now + (if devMode then 60 else 30 * 86400), false⟩)

def handle_successful_payment (env : Env) (localOff now : Int) (devMode : Bool)
    (session : Session) : Option SubscriptionData :=
  match metaGet session.metadata "telegram_id" with
  | none => none
  | some tidStr =>
    if tidStr = "" then none
    else
      match pyInt? tidStr with
      | none => none
      | some tid =>
        match checkout_period env localOff now devMode session with
        | none => none
        | some (sd, ed) =>
          some { telegram_id := tid
                 stripe_customer_id := session.customer
                 stripe_session_id := some session.id
                 status := "active"
                 subscription_type := "premium"
                 start_date := sd
                 expiry_date := ed
                 amount_paid := (session.amount_total : Rat) / 100
                 currency := session.currency
                 metadata := none }

/-- Counters for the side-effect commands a handler emits towards the chat
platform (invite-credential deliveries, user messages, admin messages, group
removals). -/
structure Effects where
  inviteDeliveries : Nat := 0
  userMessages : Nat := 0
  adminMessages : Nat := 0
  groupRemovals : Nat := 0
deriving Repr, DecidableEq

/-- The JSON body the webhook endpoint answers with (always HTTP 200 for
handled events): its `status` field is either `success` or `error`, plus the
`message` field. -/
inductive WebhookResponse where
  | ok (message : String)
  | error (message : String)
deriving Repr, DecidableEq

/-- The save branch of the `checkout.session.completed` handler: persist the
subscription via `upsert_subscription` (the handler reads the optional fields
with `.get`, so `subscription_type` defaults to `'premium'` and
`stripe_subscription_id` — absent from `handle_successful_payment`'s dict — is
always `None`), mark the trial consumed for trial purchases, and deliver the
one-time invite links. -/
def checkoutSave (now : Int) (st : Store) (sd : SubscriptionData) :
    WebhookResponse × Store × Effects :=
  let st' := upsert_subscription st now sd.telegram_id sd.start_date sd.expiry_date
      sd.subscription_type sd.metadata sd.stripe_customer_id sd.stripe_session_id
      none (some sd.amount_paid) (some sd.currency)
  let is_trial := sd.subscription_type == "trial" ||
      (match sd.metadata with
       | some m => m.is_trial == some true
       | none => false)
  let st'' := if is_trial then mark_trial_used st' sd.telegram_id else st'
  (.ok "success", st'', { inviteDeliveries := 1, userMessages := if is_trial then 1 else 0 })

/-- The `checkout.session.completed` branch of `stripe_webhook`: validate the
session; short-circuit when the session id was already recorded; compute the
subscription data (acknowledging with a manual-review message when no identity
can be resolved); block a purchase while an `'active'` document exists for the
user — as an idempotent no-op when that document carries this very session id —
and otherwise save and deliver. -/
def process_checkout_completed (env : Env) (localOff now : Int) (devMode : Bool)
    (st : Store) (session : Session) : WebhookResponse × Store × Effects :=
  match validate_checkout_session env session with
  | .reject _ action =>
    if action = "reject_payment" then (.error "unauthorized_subscription", st, {})
    else (.ok "validation_failed", st, {})
  | .ok _ _ =>
    if (get_subscription_by_stripe_session st session.id).isSome then
      (.ok "already_processed", st, {})
    else
      match handle_successful_payment env localOff now devMode session with
      | none => (.ok "payment_logged_for_manual_review", st, {})
      | some sd =>
        match get_subscription st sd.telegram_id with
        | some existing =>
          if existing.status = "active" then
            if existing.stripe_session_id = some session.id then
              (.ok "duplicate_webhook", st, {})
            else
              (.ok "subscription_blocked", st, { userMessages := 1 })
          else checkoutSave now st sd
        | none => checkoutSave now st sd

/-- The shared identity-resolution step of the invoice/subscription handlers:
retrieve the customer (a raised retrieval error aborts); take `telegram_id`
from the customer metadata when truthy (a failing `int(...)` aborts), else
fall back to the stored subscription carrying this `stripe_customer_id`.
`none` means the handler returns without touching the store. -/
def resolveTid (env : Env) (st : Store) (customerId : String) : Option Int :=
  match env.retrieveCustomer customerId with
  | none => none
  | some cust =>
    match metaGet cust.metadata "telegram_id" with
    | some t =>
      if t = "" then (get_subscription_by_stripe_customer st customerId).map (·.telegram_id)
      else pyInt? t
    | none => (get_subscription_by_stripe_customer st customerId).map (·.telegram_id)

/-- `handle_recurring_payment` (`invoice.payment_succeeded`).  Resolves the
identity; takes the subscription id from the invoice (falling back to the line
items); computes the new period from the retrieved Stripe subscription — all
period timestamps tz-aware UTC — falling back to the invoice date plus 30 days
when retrieval fails or the period bounds are absent; and rewrites the
subscription document (amount in minor units divided by 100, the invoice id
recorded as `stripe_session_id`).  `writeOk = false` models a store-write
failure: the handler logs it and returns, and the caller still acknowledges. -/
def handle_recurring_payment (env : Env) (now : Int) (writeOk : Bool) (st : Store)
    (invoice : Invoice) : Store × Effects :=
  if ¬ strTruthy invoice.customer then (st, {})
  else
    match invoice.customer with
    | none => (st, {})
    | some cid =>
      match resolveTid env st cid with
      | none => (st, {})
      | some tid =>
        let subId? : Option String :=
          if strTruthy invoice.subscription then invoice.subscription
          else invoice.lineSubscription
        let fallback : Timestamp × Timestamp :=
          (fromTimestampUTC invoice.created, ⟨invoice.created + 30 * 86400, true⟩)
        let dates : Timestamp × Timestamp :=
          match subId? with
          | none => fallback
          | some sid =>
            match env.retrieveSub sid with
            | none => fallback
            | some sub =>
              match sub.current_period_start, sub.current_period_end with
              | some ps, some pe => (fromTimestampUTC ps, fromTimestampUTC pe)
              | _, _ => fallback
        let was_trial : Bool :=
          match get_subscription st tid with
          | some ex =>
            ex.subscription_type == "trial" ||
              (match ex.metadata with
               | some m => m.is_trial == some true
               | none => false)
          | none => false
        if writeOk then
          let st' := upsert_subscription st now tid dates.1 dates.2 "premium" none
              (some cid) (some invoice.id) subId?
              (some ((invoice.amount_paid : Rat) / 100)) (some invoice.currency)
          let st'' := if was_trial then mark_trial_used st' tid else st'
          (st'', { userMessages := 1 })
        else (st, {})

/-- The `invoice.payment_succeeded` branch of `stripe_webhook`: run the
handler (which swallows every internal error) and acknowledge with success
regardless of its outcome. -/
def process_invoice_payment_succeeded (env : Env) (now : Int) (writeOk : Bool)
    (st : Store) (invoice : Invoice) : WebhookResponse × Store × Effects :=
  let (st', eff) := handle_recurring_payment env now writeOk st invoice
  (.ok "success", st', eff)

/-- `handle_subscription_updated` (`customer.subscription.updated`).  Resolves
the identity; skips when no subscription document exists yet (first-time
purchases are left to the checkout handler).  For active-like statuses it
skips when the period end is absent or the tz-aware new expiry equals the
stored one, and otherwise rewrites the document via `upsert_subscription`
(full replace).  For other statuses it marks the subscription expired. -/
def handle_subscription_updated (env : Env) (now : Int) (st : Store)
    (sub : StripeSub) : Store × Effects :=
  match resolveTid env st sub.customer with
  | none => (st, {})
  | some tid =>
    match get_subscription st tid with
    | none => (st, {})
    | some existing =>
      if sub.status = "active" ∨ sub.status = "trialing" then
        match sub.current_period_end with
        | none => (st, {})
        | some pe =>
          if existing.expiry_date ≠ fromTimestampUTC pe then
            match sub.current_period_start with
            | none => (st, {})
            | some ps =>
              (upsert_subscription st now tid (fromTimestampUTC ps) (fromTimestampUTC pe)
                "premium" none (some sub.customer) (some sub.id) (some sub.id)
                none none, {})
          else (st, {})
      else
        let (ok, st') := mark_subscription_expired st now tid
        if ok then (st', { userMessages := 1 }) else (st', {})

/-- The `customer.subscription.updated` branch of `stripe_webhook`: the
dispatcher invokes `handle_subscription_updated` only when the event's status
is `'active'` or `'trialing'`, and skips the event otherwise; either way it
acknowledges with success. -/
def process_subscription_updated (env : Env) (now : Int) (st : Store)
    (sub : StripeSub) : WebhookResponse × Store × Effects :=
  if sub.status = "active" ∨ sub.status = "trialing" then
    let (st', eff) := handle_subscription_updated env now st sub
    (.ok "success", st', eff)
  else (.ok "success", st, {})

/-- `handle_subscription_cancelled` (`customer.subscription.deleted`).
Resolves the identity; computes the resilient expiry — tz-aware period end
when present, else the stored expiry localized to UTC, else the current time —
and writes `status=expired` with `cancelled=true` metadata through
`set_subscription_cancelled_expired`, falling back to
`mark_subscription_expired` when that write fails and a document exists. -/
def handle_subscription_cancelled (env : Env) (now : Int) (st : Store)
    (sub : StripeSub) : Store × Effects :=
  match resolveTid env st sub.customer with
  | none => (st, {})
  | some tid =>
    let cpe : Timestamp :=
      match sub.current_period_end with
      | some pe => fromTimestampUTC pe
      | none =>
        match get_subscription st tid with
        | some ex => ⟨ex.expiry_date.epochSec, true⟩
        | none => nowUTC now
    let md : SubMeta := { cancelled := some true, cancelled_at := some (toString now) }
    let r := set_subscription_cancelled_expired st now tid cpe md
        (some sub.customer) (some sub.id)
    if r.1 then (r.2, { userMessages := 1, adminMessages := 1 })
    else
      match get_subscription r.2 tid with
      | some _ => ((mark_subscription_expired r.2 now tid).2, {})
      | none => (r.2, {})

/-- The `customer.subscription.deleted` branch of `stripe_webhook`: run the
handler and acknowledge with success. -/
def process_subscription_deleted (env : Env) (now : Int) (st : Store)
    (sub : StripeSub) : WebhookResponse × Store × Effects :=
  let (st', eff) := handle_subscription_cancelled env now st sub
  (.ok "success", st', eff)

/-- The result body of the `/check-expired` endpoint. -/
structure SweepResult where
  success : Bool
  expired_count : Nat
  kicked_count : Nat
deriving Repr, DecidableEq

/-- One iteration of the `/check-expired` processing loop: skip documents
without a truthy `telegram_id`; mark the subscription expired (skipping the
rest on failure); remove the user from both groups and notify user and
admins. -/
def sweep_step (now : Int) (acc : Store × Nat × Effects) (sub : Subscription) :
    Store × Nat × Effects :=
  if sub.telegram_id == 0 then acc
  else
    let r := mark_subscription_expired acc.1 now sub.telegram_id
    if r.1 then
      (r.2, acc.2.1 + 1,
        { inviteDeliveries := acc.2.2.inviteDeliveries
          userMessages := acc.2.2.userMessages + 1
          adminMessages := acc.2.2.adminMessages + 1
          groupRemovals := acc.2.2.groupRemovals + 2 })
    else (r.2, acc.2)

/-- The `/check-expired` endpoint (manual or scheduled sweep): query the
expired subscriptions (`readOk = false` models a store read failure, which
`find_expired_subscriptions` swallows into an empty list) and process each;
the response always reports success with the counts. -/
def check_expired (readOk : Bool) (now : Int) (st : Store) :
    SweepResult × Store × Effects :=
  let expired := find_expired_subscriptions readOk st now
  let folded := expired.foldl (sweep_step now) (st, 0, {})
  ({ success := true, expired_count := expired.length, kicked_count := folded.2.1 },
   folded.1, folded.2.2)

/-! Concrete instances used by witnesses and counterexamples. -/

/-- A bot-initiated checkout session for subscriber 42, one-time payment. -/
def sessionA : Session :=
  { id := "cs_1", metadata := [("telegram_id", "42"), ("source", "gcp-bot")],
    customer := none, subscription := none, amount_total := 999, currency := "usd" }

/-- The Stripe customer for subscriber 42. -/
def customerA : CustomerObj := ⟨"cus_1", [("telegram_id", "42")]⟩

/-- A recurring Stripe subscription for customer `cus_1`. -/
def stripeSubA : StripeSub :=
  { id := "sub_1", customer := "cus_1", status := "active",
    current_period_start := some 500, current_period_end := some 2000 }

/-- A ledger holding `customerA` and `stripeSubA`. -/
def envA : Env :=
  { customers := [("cus_1", customerA)], stripeSubs := [("sub_1", stripeSubA)] }

/-- An active stored trial subscription for subscriber 42 (expires at 1000). -/
def subActiveA : Subscription :=
  { telegram_id := 42, start_date := ⟨0, true⟩, expiry_date := ⟨1000, true⟩,
    subscription_type := "trial", status := "active", updated_at := ⟨0, false⟩,
    stripe_customer_id := some "cus_1", stripe_session_id := some "cs_0",
    amount_paid := some 10, currency := some "usd",
    metadata := some { is_trial := some true } }

/-- A store holding only `subActiveA`. -/
def storeA : Store := ⟨[subActiveA], []⟩

/-- An invoice for customer `cus_1` on subscription `sub_1`. -/
def invoiceA : Invoice :=
  { id := "in_1", customer := some "cus_1", subscription := some "sub_1",
    lineSubscription := none, created := 900, amount_paid := 2500, currency := "usd" }

/-- A `customer.subscription.deleted` payload for `cus_1` whose period end is
absent. -/
def delSubA : StripeSub :=
  { id := "sub_1", customer := "cus_1", status := "canceled",
    current_period_start := none, current_period_end := none }

/-- A checkout session in subscription mode referencing `sub_1`. -/
def sessionSubA : Session :=
  { sessionA with id := "cs_9", subscription := some "sub_1" }

/-- Whether a webhook response carries `status=success` (an acknowledgement). -/
def WebhookResponse.isOk : WebhookResponse → Bool
  | .ok _ => true
  | .error _ => false

/-! General lemmas about the embedded operations. -/

/-- Replacing the document keyed `tid` makes it the one `get_subscription`
finds. -/
theorem get_subscription_setDoc_self (st : Store) (tid : Int) (s : Subscription)
    (h : s.telegram_id = tid) : get_subscription (setDoc st tid s) tid = some s := by
  simp [get_subscription, setDoc, List.find?_cons, h]

/-- A subscription found by `get_subscription` is a stored document with the
requested key. -/
theorem get_subscription_eq_some (st : Store) (tid : Int) (s : Subscription)
    (h : get_subscription st tid = some s) : s ∈ st.subs ∧ s.telegram_id = tid := by
  refine ⟨List.mem_of_find?_eq_some h, ?_⟩
  have := List.find?_some h
  simpa using this

/-- A predicate that finds nothing in a list finds nothing in its filter. -/
theorem find?_filter_none {α : Type} (l : List α) (p q : α → Bool)
    (h : l.find? p = none) : (l.filter q).find? p = none := by
  rw [List.find?_eq_none] at h ⊢
  intro a ha
  exact h a (List.mem_of_mem_filter ha)

/-- Every billing period `checkout_period` produces is built from naive
(non-tz-aware) datetimes. -/
theorem checkout_period_naive (env : Env) (l n : Int) (d : Bool) (session : Session)
    (a b : Timestamp) (h : checkout_period env l n d session = some (a, b)) :
    a.tzAware = false ∧ b.tzAware = false := by
  unfold checkout_period at h
  repeat' split at h
  all_goals simp_all [fromTimestampNaive, utcnowNaive]
  all_goals (obtain ⟨ha, hb⟩ := h; rw [← ha, ← hb]; exact ⟨rfl, rfl⟩)

/-- Every subscription-data record `handle_successful_payment` produces has
naive start and expiry dates and the minor-unit amount divided by 100. -/
theorem hsp_naive (env : Env) (l n : Int) (d : Bool) (session : Session)
    (sd : SubscriptionData)
    (h : handle_successful_payment env l n d session = some sd) :
    sd.start_date.tzAware = false ∧ sd.expiry_date.tzAware = false ∧
      sd.amount_paid = (session.amount_total : Rat) / 100 := by
  unfold handle_successful_payment at h
  rcases hm : metaGet session.metadata "telegram_id" with _ | t <;> simp only [hm] at h
  · simp at h
  · by_cases ht : t = ""
    · simp [ht] at h
    · rw [if_neg ht] at h
      rcases hp : pyInt? t with _ | tid <;> simp only [hp] at h
      · simp at h
      · rcases hcp : checkout_period env l n d session with _ | ⟨a, b⟩ <;> rw [hcp] at h
        · simp at h
        · obtain ⟨ha, hb⟩ := checkout_period_naive env l n d session a b hcp
          injection h with h
          rw [← h]
          simp [ha, hb]

/-- A successful validation pins down the parse of the session's
`telegram_id` metadata. -/
theorem validate_ok_parse (env : Env) (session : Session) (tid : Int) (src : String)
    (h : validate_checkout_session env session = .ok tid src) :
    (metaGet session.metadata "telegram_id").bind pyInt? = some tid := by
  unfold validate_checkout_session at h
  repeat' split at h
  all_goals simp_all

/-- `handle_successful_payment` derives its `telegram_id` from the same
metadata parse as the validator. -/
theorem hsp_tid (env : Env) (l n : Int) (d : Bool) (session : Session)
    (sd : SubscriptionData)
    (h : handle_successful_payment env l n d session = some sd) :
    (metaGet session.metadata "telegram_id").bind pyInt? = some sd.telegram_id := by
  unfold handle_successful_payment at h
  rcases hm : metaGet session.metadata "telegram_id" with _ | t <;> simp only [hm] at h
  · simp at h
  · by_cases ht : t = ""
    · simp [ht] at h
    · rw [if_neg ht] at h
      rcases hp : pyInt? t with _ | tid <;> simp only [hp] at h
      · simp at h
      · rcases hcp : checkout_period env l n d session with _ | ⟨a, b⟩ <;> rw [hcp] at h
        · simp at h
        · injection h with h
          rw [← h]
          simp [hp]

/-! Claim theorems. -/

/-- C4: the expiry sweep run at time `now` selects exactly the subscriptions
with `status=active` and `expiry_date < now`, except that a record with a
(truthy) recurring subscription id is selected only once `now` has reached
`expiry_date` plus the 5-minute grace window; records still inside the grace
window are skipped. -/
theorem find_expired_selects_exactly (st : Store) (now : Int) (s : Subscription) :
    s ∈ find_expired_subscriptions true st now ↔
      s ∈ st.subs ∧ s.status = "active" ∧ s.expiry_date.epochSec < now ∧
        (strTruthy s.stripe_subscription_id = true →
          s.expiry_date.epochSec + 5 * 60 ≤ now) := by
  simp only [find_expired_subscriptions, if_true, List.mem_filter, findExpiredFilter,
    Bool.and_eq_true, decide_eq_true_eq, beq_iff_eq]
  cases hrec : strTruthy s.stripe_subscription_id <;>
    simp [hrec] <;> intro _ <;> tauto

/-- Witness for C4: the stored active subscription of subscriber 42, expired
at 1000 and without a recurring id, is selected by a sweep at time 2000. -/
theorem find_expired_selects_exactly_witness :
    subActiveA ∈ find_expired_subscriptions true storeA 2000 :=
  (find_expired_selects_exactly storeA 2000 subActiveA).mpr
    ⟨by decide, by decide, by decide, by decide⟩

/-- C10: a checkout session whose own metadata is valid (`telegram_id` a
positive integer, `source` equal to `gcp-bot`) but which references no
customer at all (absent or empty `customer` field) passes validation on the
session metadata alone, whatever the customer ledger holds. -/
theorem validate_without_customer_succeeds (env : Env) (session : Session)
    (t : String) (tid : Int)
    (hmeta : metaGet session.metadata "telegram_id" = some t)
    (hparse : pyInt? t = some tid) (hpos : 0 < tid)
    (hsrc : metaGet session.metadata "source" = some "gcp-bot")
    (hcust : session.customer = none ∨ session.customer = some "") :
    validate_checkout_session env session = .ok tid "gcp-bot" := by
  have hne : session.metadata.isEmpty = false := by
    cases hm : session.metadata with
    | nil => rw [hm] at hmeta; simp [metaGet] at hmeta
    | cons a l => simp
  have hnle : ¬ tid ≤ 0 := by omega
  rcases hcust with h | h <;>
    simp [validate_checkout_session, hne, hmeta, hsrc, hparse, h, strTruthy, hnle]

/-- Witness for C10: `sessionA` has no customer reference and validates to
subscriber 42 against an empty ledger. -/
theorem validate_without_customer_succeeds_witness :
    validate_checkout_session {} sessionA = .ok 42 "gcp-bot" :=
  validate_without_customer_succeeds {} sessionA "42" 42 (by decide) (by decide)
    (by decide) (by decide) (Or.inl (by decide))

/-- C3: for a subscriber whose stored subscription is `active` with an expiry
in the future, processing a `CheckoutCompleted` event validated to that
subscriber never writes the store and never delivers invite credentials —
and when the event carries the already-recorded checkout session id, the
response is the idempotent `already_processed` no-op. -/
theorem active_subscriber_checkout_blocked (env : Env) (localOff now : Int)
    (devMode : Bool) (st : Store) (session : Session) (tid : Int) (src : String)
    (sub : Subscription)
    (hval : validate_checkout_session env session = .ok tid src)
    (hsub : get_subscription st tid = some sub)
    (hact : sub.status = "active")
    (hfut : now < sub.expiry_date.epochSec) :
    (process_checkout_completed env localOff now devMode st session).2.1 = st ∧
    (process_checkout_completed env localOff now devMode st session).2.2.inviteDeliveries = 0 ∧
    (sub.stripe_session_id = some session.id →
      (process_checkout_completed env localOff now devMode st session).1
        = .ok "already_processed") := by
  obtain ⟨hmem, htid⟩ := get_subscription_eq_some st tid sub hsub
  simp only [process_checkout_completed, hval]
  by_cases hss : (get_subscription_by_stripe_session st session.id).isSome
  · simp [hss]
  · have hnotid : ¬ sub.stripe_session_id = some session.id := by
      intro he
      refine hss ?_
      rw [get_subscription_by_stripe_session, List.find?_isSome]
      exact ⟨sub, hmem, by simp [he]⟩
    simp only [hss, if_false, reduceIte, Bool.false_eq_true]
    cases hh : handle_successful_payment env localOff now devMode session with
    | none => simp [hnotid]
    | some sd =>
      have hsdtid : sd.telegram_id = tid := by
        have h1 := hsp_tid env localOff now devMode session sd hh
        have h2 := validate_ok_parse env session tid src hval
        rw [h1] at h2
        exact Option.some.inj h2
      simp only [hsdtid, hsub, hact, if_true, reduceIte]
      simp [hnotid]

/-- Witness for C3: subscriber 42 is active until 1000; a fresh checkout at
time 500 with a new session id leaves the store unchanged and delivers no
invite. -/
theorem active_subscriber_checkout_blocked_witness :
    (process_checkout_completed envA 0 500 false storeA sessionA).2.1 = storeA ∧
    (process_checkout_completed envA 0 500 false storeA sessionA).2.2.inviteDeliveries = 0 :=
  ⟨(active_subscriber_checkout_blocked envA 0 500 false storeA sessionA 42 "gcp-bot"
      subActiveA (by decide) (by decide) (by decide) (by decide)).1,
   (active_subscriber_checkout_blocked envA 0 500 false storeA sessionA 42 "gcp-bot"
      subActiveA (by decide) (by decide) (by decide) (by decide)).2.1⟩

/-- Counterexample for C5: a `customer.subscription.updated` event with the
non-active-like status `canceled`, for a customer who resolves to subscriber
42, leaves the stored subscription `active` — it is not marked expired,
because the dispatcher skips non-active-like statuses before the handler's
mark-expired branch can run. -/
theorem subscription_updated_nonactive_skipped_cex :
    resolveTid envA storeA "cus_1" = some 42 ∧
    ((get_subscription (process_subscription_updated envA 100 storeA
        { stripeSubA with status := "canceled" }).2.1 42).map (fun s => s.status))
      = some "active" := by decide

/-- C5 (amended): processing a `SubscriptionUpdated` event whose status is not
active-like is a no-op — the dispatcher skips it without any store write and
acknowledges, so the stored subscription keeps its previous status; the
handler's mark-expired branch is unreachable from the event dispatcher. -/
theorem subscription_updated_nonactive_noop (env : Env) (now : Int) (st : Store)
    (sub : StripeSub) (h1 : sub.status ≠ "active") (h2 : sub.status ≠ "trialing") :
    process_subscription_updated env now st sub = (.ok "success", st, {}) := by
  simp [process_subscription_updated, h1, h2]

/-- Witness for C5 (amended): the skipped `canceled` update for subscriber 42
returns the store unchanged. -/
theorem subscription_updated_nonactive_noop_witness :
    process_subscription_updated envA 100 storeA { stripeSubA with status := "canceled" }
      = (.ok "success", storeA, {}) :=
  subscription_updated_nonactive_noop envA 100 storeA
    { stripeSubA with status := "canceled" } (by decide) (by decide)

/-- Counterexample for C9: for a subscription-mode checkout session resolved
against the ledger (period 500–2000) on a server with a 3600-second local
offset, `handle_successful_payment` produces start and expiry dates that are
naive (not tz-aware) and shifted off the ledger's UTC epochs by the local
offset — not timezone-aware UTC instants. -/
theorem checkout_timestamps_not_utc_aware_cex :
    ((handle_successful_payment envA 3600 100 false sessionSubA).map
        (fun sd => (sd.start_date, sd.expiry_date)))
      = some (⟨4100, false⟩, ⟨5600, false⟩) := by decide

/-- C9 (amended): on the recurring-payment path the stored start and expiry
dates are timezone-aware UTC instants equal to the ledger's period epochs and
the stored amount is the invoice's minor-unit amount divided by 100; on the
checkout-completion path the amount is likewise the minor-unit total divided
by 100, but the computed start and expiry timestamps are naive — built by
`datetime.fromtimestamp` without a timezone or by naive `utcnow` — rather
than timezone-aware UTC instants. -/
theorem timestamp_and_amount_semantics (env : Env) (now : Int) (st : Store)
    (invoice : Invoice) (cid : String) (tid : Int) (sid : String) (sub : StripeSub)
    (ps pe : Int)
    (hcid : invoice.customer = some cid) (hcne : cid ≠ "")
    (hres : resolveTid env st cid = some tid)
    (hsub : invoice.subscription = some sid) (hsne : sid ≠ "")
    (hret : env.retrieveSub sid = some sub)
    (hps : sub.current_period_start = some ps)
    (hpe : sub.current_period_end = some pe) :
    ((get_subscription (handle_recurring_payment env now true st invoice).1 tid).map
        (fun r => (r.start_date, r.expiry_date, r.amount_paid)))
      = some (⟨ps, true⟩, ⟨pe, true⟩, some ((invoice.amount_paid : Rat) / 100)) ∧
    (∀ (env' : Env) (localOff n : Int) (d : Bool) (session : Session)
        (sd : SubscriptionData),
       handle_successful_payment env' localOff n d session = some sd →
       sd.start_date.tzAware = false ∧ sd.expiry_date.tzAware = false ∧
         sd.amount_paid = (session.amount_total : Rat) / 100) := by
  constructor
  · have hc1 : strTruthy (some cid) = true := by simp [strTruthy, hcne]
    have hc2 : strTruthy (some sid) = true := by simp [strTruthy, hsne]
    simp only [handle_recurring_payment, hcid, hsub, hres, hc1, hc2, hret, hps, hpe,
      not_true, Bool.true_eq_false, if_false, reduceIte]
    split <;>
      simp [upsert_subscription, mark_trial_used, get_subscription, setDoc,
        List.find?_cons, fromTimestampUTC]
  · intro env' localOff n d session sd h
    exact hsp_naive env' localOff n d session sd h

/-- Witness for C9 (amended): a renewal invoice of 2500 minor units for
subscriber 42 stores the tz-aware ledger period 500–2000 and the amount 25. -/
theorem timestamp_and_amount_semantics_witness :
    ((get_subscription (handle_recurring_payment envA 100 true storeA invoiceA).1 42).map
        (fun r => (r.start_date, r.expiry_date, r.amount_paid)))
      = some (⟨500, true⟩, ⟨2000, true⟩, some ((2500 : Rat) / 100)) :=
  (timestamp_and_amount_semantics envA 100 storeA invoiceA "cus_1" 42 "sub_1"
    stripeSubA 500 2000 (by decide) (by decide) (by decide) (by decide) (by decide)
    (by decide) (by decide) (by decide)).1

/-- Counterexample for C6: subscriber 42's stored subscription has type
`trial`, amount 10, currency `usd` and trial metadata; after an active-like
`SubscriptionUpdated` event with a changed period end, the stored document has
type `premium` and its amount, currency and metadata are gone — processing
replaced the whole document, not only `expiry_date`. -/
theorem subscription_updated_frame_cex :
    ((get_subscription storeA 42).map
        (fun r => (r.subscription_type, r.amount_paid, r.currency, r.metadata))
      = some ("trial", some 10, some "usd",
          some { cancelled := none, cancelled_at := none, is_trial := some true })) ∧
    ((get_subscription (process_subscription_updated envA 100 storeA stripeSubA).2.1 42).map
        (fun r => (r.subscription_type, r.amount_paid, r.currency, r.metadata))
      = some ("premium", none, none, none)) := by decide

/-- C6 (amended): for an active-like `SubscriptionUpdated` event, processing
is a no-op when no subscription document exists for the resolved identity or
when the new expiry equals the stored one; when they differ, the stored
document is replaced wholesale — start and expiry from the event's period,
`subscription_type` reset to `premium`, and `metadata`, `amount_paid` and
`currency` dropped. -/
theorem subscription_updated_replaces_document (env : Env) (now : Int) (st : Store)
    (sub : StripeSub) (tid : Int)
    (hact : sub.status = "active" ∨ sub.status = "trialing")
    (hres : resolveTid env st sub.customer = some tid) :
    (get_subscription st tid = none →
       process_subscription_updated env now st sub = (.ok "success", st, {})) ∧
    (∀ ex pe, get_subscription st tid = some ex → sub.current_period_end = some pe →
       ex.expiry_date = fromTimestampUTC pe →
       process_subscription_updated env now st sub = (.ok "success", st, {})) ∧
    (∀ ex ps pe, get_subscription st tid = some ex →
       sub.current_period_start = some ps → sub.current_period_end = some pe →
       ex.expiry_date ≠ fromTimestampUTC pe →
       ((get_subscription (process_subscription_updated env now st sub).2.1 tid).map
          (fun r => (r.start_date, r.expiry_date, r.subscription_type, r.metadata,
                     r.amount_paid, r.currency)))
         = some (⟨ps, true⟩, ⟨pe, true⟩, "premium", none, none, none)) := by
  refine ⟨?_, ?_, ?_⟩
  · intro hnone
    simp [process_subscription_updated, hact, handle_subscription_updated, hres, hnone]
  · intro ex pe hex hpe heq
    simp [process_subscription_updated, hact, handle_subscription_updated, hres, hex,
      hpe, heq]
  · intro ex ps pe hex hps hpe hne
    simp only [process_subscription_updated, hact, if_true, or_true, true_or,
      handle_subscription_updated, hres, hex, hpe, hps, hne, if_false, ite_not,
      reduceIte]
    simp [hact, upsert_subscription, get_subscription, setDoc, List.find?_cons,
      fromTimestampUTC, hne]

/-- Witness for C6 (amended): the changed-expiry case at subscriber 42's
stored trial document, replaced by a fresh premium document for period
500–2000. -/
theorem subscription_updated_replaces_document_witness :
    ((get_subscription (process_subscription_updated envA 100 storeA stripeSubA).2.1 42).map
        (fun r => (r.start_date, r.expiry_date, r.subscription_type, r.metadata,
                   r.amount_paid, r.currency)))
      = some (⟨500, true⟩, ⟨2000, true⟩, "premium", none, none, none) :=
  (subscription_updated_replaces_document envA 100 storeA stripeSubA 42
    (Or.inl (by decide)) (by decide)).2.2 subActiveA 500 2000 (by decide) (by decide)
    (by decide) (by decide)

/-- C1: processing a `SubscriptionDeleted` event whose customer resolves to a
subscriber identity leaves every stored subscription of that identity with
`status=expired` (never `active`), `cancelled=true` recorded in metadata, and
`expiry_date` equal to the ledger's period end when present, else the
previously stored expiry date (made timezone-aware), else the current time. -/
theorem subscription_deleted_sets_expired (env : Env) (now : Int) (st : Store)
    (sub : StripeSub) (tid : Int)
    (hres : resolveTid env st sub.customer = some tid) :
    ∀ s ∈ (process_subscription_deleted env now st sub).2.1.subs,
      s.telegram_id = tid →
      s.status = "expired" ∧
      (∃ m, s.metadata = some m ∧ m.cancelled = some true) ∧
      s.expiry_date = (match sub.current_period_end with
        | some pe => fromTimestampUTC pe
        | none =>
          match get_subscription st tid with
          | some ex => ⟨ex.expiry_date.epochSec, true⟩
          | none => nowUTC now) := by
  intro s hs htid
  simp only [process_subscription_deleted, handle_subscription_cancelled, hres] at hs
  by_cases hany : st.subs.any (fun x => x.telegram_id == tid)
  · simp only [set_subscription_cancelled_expired, hany, if_true, reduceIte] at hs
    rcases List.mem_map.mp hs with ⟨x, hxmem, hxeq⟩
    by_cases hx : x.telegram_id == tid
    · rw [if_pos hx] at hxeq
      subst hxeq
      refine ⟨rfl, ?_, rfl⟩
      exact ⟨{ cancelled := some true, cancelled_at := some (toString now) }, rfl, rfl⟩
    · rw [if_neg hx] at hxeq
      rw [← hxeq] at htid
      exact absurd (by simp [htid]) hx
  · have hg : get_subscription st tid = none := by
      rw [get_subscription, List.find?_eq_none]
      intro x hx hbx
      exact hany (List.any_eq_true.mpr ⟨x, hx, hbx⟩)
    simp [set_subscription_cancelled_expired, hany, hg] at hs
    exfalso
    exact hany (List.any_eq_true.mpr ⟨s, hs, by simp [htid]⟩)

/-- Counterexample for C7: a recurring-payment event whose store write fails
(`writeOk = false`, the store is returned unchanged) is still answered with
`status=success` — the event is acknowledged as processed, not reported to
the caller as a failure. -/
theorem store_failure_still_acknowledged_cex :
    process_invoice_payment_succeeded envA 100 false storeA invoiceA
      = (.ok "success", storeA, {}) := by decide

/-- C7 (amended): every processor-originated event is acknowledged regardless
of internal store failures — the recurring-payment path answers
`status=success` whether or not its store write succeeds, and the checkout
path answers a success-status response to every event that passes validation;
a store read failure during the manual sweep is swallowed into an empty
result, so the sweep reports success with `expired_count = 0` rather than a
failed operation result. -/
theorem event_acknowledgement_semantics :
    (∀ (env : Env) (now : Int) (writeOk : Bool) (st : Store) (invoice : Invoice),
       (process_invoice_payment_succeeded env now writeOk st invoice).1 = .ok "success") ∧
    (∀ (env : Env) (localOff now : Int) (devMode : Bool) (st : Store)
       (session : Session) (tid : Int) (src : String),
       validate_checkout_session env session = .ok tid src →
       ((process_checkout_completed env localOff now devMode st session).1).isOk = true) ∧
    (∀ (now : Int) (st : Store),
       check_expired false now st
         = ({ success := true, expired_count := 0, kicked_count := 0 }, st, {})) := by
  refine ⟨?_, ?_, ?_⟩
  · intro env now writeOk st invoice
    rfl
  · intro env localOff now devMode st session tid src hval
    simp only [process_checkout_completed, hval]
    split
    · rfl
    · split
      · rfl
      · split
        · split
          · split <;> rfl
          · simp [checkoutSave, WebhookResponse.isOk]
        · simp [checkoutSave, WebhookResponse.isOk]
  · intro now st
    rfl

/-- Witness for C7 (amended): the three acknowledgement facts at concrete
inputs, the checkout case discharged with `sessionA`, which validates. -/
theorem event_acknowledgement_semantics_witness :
    (process_invoice_payment_succeeded envA 100 false storeA invoiceA).1 = .ok "success" ∧
    ((process_checkout_completed envA 0 500 false storeA sessionA).1).isOk = true ∧
    check_expired false 100 storeA
      = ({ success := true, expired_count := 0, kicked_count := 0 }, storeA, {}) :=
  ⟨event_acknowledgement_semantics.1 envA 100 false storeA invoiceA,
   event_acknowledgement_semantics.2.1 envA 0 500 false storeA sessionA 42 "gcp-bot"
     (by decide),
   event_acknowledgement_semantics.2.2 100 storeA⟩

/-- Witness for C1: deleting subscriber 42's subscription (period end absent
from the payload) leaves the stored document expired. -/
theorem subscription_deleted_sets_expired_witness :
    ((get_subscription (process_subscription_deleted envA 100 storeA delSubA).2.1 42).map
      (fun s => s.status)) = some "expired" := by
  have h := subscription_deleted_sets_expired envA 100 storeA delSubA 42 (by decide)
  cases hfs : get_subscription (process_subscription_deleted envA 100 storeA delSubA).2.1 42 with
  | none => exact absurd hfs (by decide)
  | some r =>
    obtain ⟨hmem, htid⟩ := get_subscription_eq_some _ _ _ hfs
    have hr := h r hmem htid
    simp [hfs, hr.1]

/-- Marking a trial consumed does not touch the subscriptions collection. -/
theorem mark_trial_used_subs (st : Store) (a : Int) :
    (mark_trial_used st a).subs = st.subs := rfl

/-- Whether `checkout_period` fails does not depend on the current time. -/
theorem checkout_period_none_iff (env : Env) (l n n' : Int) (d : Bool) (s : Session) :
    checkout_period env l n d s = none ↔ checkout_period env l n' d s = none := by
  unfold checkout_period
  repeat' split <;> simp_all

/-- Whether `handle_successful_payment` succeeds does not depend on the
current time. -/
theorem hsp_isSome_congr (env : Env) (l n n' : Int) (d : Bool) (s : Session) :
    (handle_successful_payment env l n d s).isSome
      = (handle_successful_payment env l n' d s).isSome := by
  unfold handle_successful_payment
  rcases hm : metaGet s.metadata "telegram_id" with _ | t <;> simp
  by_cases ht : t = ""
  · simp [ht]
  · rw [if_neg ht, if_neg ht]
    rcases hp : pyInt? t with _ | tid <;> simp
    rcases hcp : checkout_period env l n d s with _ | ⟨a, b⟩
    · rw [(checkout_period_none_iff env l n n' d s).mp hcp]
    · rcases hcp2 : checkout_period env l n' d s with _ | ⟨a2, b2⟩
      · rw [(checkout_period_none_iff env l n' n d s).mp hcp2] at hcp
        simp at hcp
      · simp

/-- `handle_successful_payment` records the session id it was given. -/
theorem hsp_session_id (env : Env) (l n : Int) (d : Bool) (session : Session)
    (sd : SubscriptionData)
    (h : handle_successful_payment env l n d session = some sd) :
    sd.stripe_session_id = some session.id := by
  unfold handle_successful_payment at h
  rcases hm : metaGet session.metadata "telegram_id" with _ | t <;> simp only [hm] at h
  · simp at h
  · by_cases ht : t = ""
    · simp [ht] at h
    · rw [if_neg ht] at h
      rcases hp : pyInt? t with _ | tid <;> simp only [hp] at h
      · simp at h
      · rcases hcp : checkout_period env l n d session with _ | ⟨a, b⟩ <;> rw [hcp] at h
        · simp at h
        · injection h with h
          rw [← h]

/-- Every run of the checkout handler either leaves the store unchanged and
delivers no invite, or goes through the save branch — and then validation
passed, the session id was not yet recorded, the payment data resolved and no
stored active document existed for the buyer. -/
theorem process_checkout_cases (env : Env) (l n : Int) (d : Bool) (st : Store)
    (session : Session) :
    ((process_checkout_completed env l n d st session).2.1 = st ∧
     (process_checkout_completed env l n d st session).2.2.inviteDeliveries = 0) ∨
    (∃ sd tid src, validate_checkout_session env session = .ok tid src ∧
       get_subscription_by_stripe_session st session.id = none ∧
       handle_successful_payment env l n d session = some sd ∧
       (∀ ex, get_subscription st sd.telegram_id = some ex → ¬ ex.status = "active") ∧
       process_checkout_completed env l n d st session = checkoutSave n st sd) := by
  cases hv : validate_checkout_session env session with
  | reject e a =>
    left
    simp only [process_checkout_completed, hv]
    split <;> simp
  | ok tid src =>
    simp only [process_checkout_completed, hv]
    by_cases hss : (get_subscription_by_stripe_session st session.id).isSome
    · left; simp [hss]
    · have hssn : get_subscription_by_stripe_session st session.id = none :=
        Option.not_isSome_iff_eq_none.mp hss
      simp only [hss, if_false, reduceIte, Bool.false_eq_true]
      cases hh : handle_successful_payment env l n d session with
      | none => left; simp
      | some sd =>
        cases hex : get_subscription st sd.telegram_id with
        | some existing =>
          by_cases hst : existing.status = "active"
          · by_cases hdup : existing.stripe_session_id = some session.id
            · left; simp [hex, hst, hdup]
            · left; simp [hex, hst, hdup]
          · right
            refine ⟨sd, tid, src, rfl, hssn, rfl, ?_, by simp [hex, hst]⟩
            intro ex2 hex2
            rw [hex] at hex2
            injection hex2 with hex2
            rw [← hex2]
            exact hst
        | none =>
          right
          refine ⟨sd, tid, src, rfl, hssn, rfl, ?_, by simp [hex]⟩
          intro ex2 hex2
          rw [hex] at hex2
          exact Option.noConfusion hex2



/-- The collection after `upsert_subscription`: the fresh active document in
front of the other subscribers' documents. -/
theorem upsert_subscription_subs (st : Store) (n tid : Int) (a b : Timestamp)
    (ty : String) (md : Option SubMeta) (c s r : Option String) (amt : Option Rat)
    (cu : Option String) :
    (upsert_subscription st n tid a b ty md c s r amt cu).subs
      = { telegram_id := tid, start_date := a, expiry_date := b,
          subscription_type := ty, status := "active", updated_at := utcnowNaive n,
          stripe_customer_id := if strTruthy c then c else none,
          stripe_session_id := if strTruthy s then s else none,
          stripe_subscription_id := if strTruthy r then r else none,
          amount_paid := amt, currency := if strTruthy cu then cu else none,
          metadata := if metaTruthy md then md else none }
        :: st.subs.filter (fun x => x.telegram_id != tid) := rfl

/-- The checkout save branch leaves exactly the `upsert_subscription`
collection (trial marking touches only the user records). -/
theorem checkoutSave_subs (n : Int) (st : Store) (sd : SubscriptionData) :
    ((checkoutSave n st sd).2.1).subs
      = (upsert_subscription st n sd.telegram_id sd.start_date sd.expiry_date
          sd.subscription_type sd.metadata sd.stripe_customer_id sd.stripe_session_id
          none (some sd.amount_paid) (some sd.currency)).subs := by
  simp only [checkoutSave]
  split <;> rfl

/-- When validation passes, the session id is new, payment data resolves and
no active document blocks the purchase, the checkout handler takes the save
branch. -/
theorem process_checkout_save (env : Env) (l n : Int) (d : Bool) (st : Store)
    (session : Session) (sd : SubscriptionData) (tid : Int) (src : String)
    (hv : validate_checkout_session env session = .ok tid src)
    (hssn : get_subscription_by_stripe_session st session.id = none)
    (hh : handle_successful_payment env l n d session = some sd)
    (hnact : ∀ ex, get_subscription st sd.telegram_id = some ex →
      ¬ ex.status = "active") :
    process_checkout_completed env l n d st session = checkoutSave n st sd := by
  simp only [process_checkout_completed, hv, hssn, hh]
  cases hex : get_subscription st sd.telegram_id with
  | some ex => simp [hex, hnact ex hex]
  | none => simp [hex]



/-- C2: replaying a checkout-completion event with the same session id after
it has been processed once is a no-op — the second run leaves the store
exactly as the first run left it (no second Subscription record, no second
active period) and delivers no invite credentials. -/
theorem checkout_replay_idempotent (env : Env) (localOff now now' : Int)
    (devMode : Bool) (st : Store) (session : Session) :
    (process_checkout_completed env localOff now' devMode
        (process_checkout_completed env localOff now devMode st session).2.1 session).2.1
      = (process_checkout_completed env localOff now devMode st session).2.1 ∧
    (process_checkout_completed env localOff now' devMode
        (process_checkout_completed env localOff now devMode st session).2.1
        session).2.2.inviteDeliveries = 0 := by
  rcases process_checkout_cases env localOff now devMode st session with
    ⟨h1, _⟩ | ⟨sd, tid, src, hv, hssn, hh, hnact, hp⟩
  · rw [h1]
    rcases process_checkout_cases env localOff now' devMode st session with
      ⟨h1', h2'⟩ | ⟨sd', tid', src', hv', hssn', hh', hnact', hp'⟩
    · exact ⟨h1', h2'⟩
    · exfalso
      have hcg := hsp_isSome_congr env localOff now now' devMode session
      rw [hh'] at hcg
      obtain ⟨sd0, hh0⟩ := Option.isSome_iff_exists.mp (by rw [hcg]; rfl)
      have htid0 : sd0.telegram_id = sd'.telegram_id := by
        have a := hsp_tid env localOff now devMode session sd0 hh0
        have b := hsp_tid env localOff now' devMode session sd' hh'
        rw [a] at b
        exact Option.some.inj b
      have hnact0 : ∀ ex, get_subscription st sd0.telegram_id = some ex →
          ¬ ex.status = "active" := by
        rw [htid0]; exact hnact'
      have hp0 := process_checkout_save env localOff now devMode st session sd0 tid' src'
        hv' hssn' hh0 hnact0
      rw [hp0] at h1
      have hsubs := congrArg Store.subs h1
      rw [checkoutSave_subs, upsert_subscription_subs] at hsubs
      obtain ⟨doc, rest, hsubs2, hdocst, hdoctid⟩ :
          ∃ doc rest, st.subs = doc :: rest ∧ doc.status = "active" ∧
            doc.telegram_id = sd0.telegram_id := ⟨_, _, hsubs.symm, rfl, rfl⟩
      have hget : get_subscription st sd0.telegram_id = some doc := by
        rw [get_subscription, hsubs2]
        exact List.find?_cons_of_pos _ (by simp [hdoctid])
      exact hnact0 doc hget hdocst
  · rw [hp]
    have hsubs := checkoutSave_subs now st sd
    rw [upsert_subscription_subs] at hsubs
    obtain ⟨doc, rest, hsubs2, hdoctid, hdocst, hdocsid, hrest⟩ :
        ∃ doc rest, ((checkoutSave now st sd).2.1).subs = doc :: rest ∧
          doc.telegram_id = sd.telegram_id ∧ doc.status = "active" ∧
          doc.stripe_session_id
            = (if strTruthy sd.stripe_session_id then sd.stripe_session_id else none) ∧
          rest = st.subs.filter (fun x => x.telegram_id != sd.telegram_id) :=
      ⟨_, _, hsubs, rfl, rfl, rfl, rfl⟩
    have hsid := hsp_session_id env localOff now devMode session sd hh
    have hcg := hsp_isSome_congr env localOff now' now devMode session
    rw [hh] at hcg
    obtain ⟨sd', hh'⟩ := Option.isSome_iff_exists.mp (by rw [hcg]; rfl)
    have htid' : sd'.telegram_id = sd.telegram_id := by
      have a := hsp_tid env localOff now' devMode session sd' hh'
      have b := hsp_tid env localOff now devMode session sd hh
      rw [a] at b
      exact Option.some.inj b
    simp only [get_subscription_by_stripe_session] at hssn
    by_cases hid : session.id = ""
    · have hlk : get_subscription_by_stripe_session ((checkoutSave now st sd).2.1)
          session.id = none := by
        rw [get_subscription_by_stripe_session, hsubs2, List.find?_cons_of_neg, hrest]
        · exact find?_filter_none _ _ _ hssn
        · simp [hdocsid, hsid, hid, strTruthy]
      have hget : get_subscription ((checkoutSave now st sd).2.1) sd'.telegram_id
          = some doc := by
        rw [get_subscription, hsubs2, htid']
        exact List.find?_cons_of_pos _ (by simp [hdoctid])
      have hnid : ¬ doc.stripe_session_id = some session.id := by
        simp [hdocsid, hsid, hid, strTruthy]
      simp only [process_checkout_completed, hv, hlk, Option.isSome_none,
        Bool.false_eq_true, if_false, reduceIte, hh', hget]
      simp [hdocst, hnid]
    · have hlk : (get_subscription_by_stripe_session ((checkoutSave now st sd).2.1)
          session.id).isSome = true := by
        rw [get_subscription_by_stripe_session, hsubs2, List.find?_cons_of_pos]
        · rfl
        · simp [hdocsid, hsid, hid, strTruthy]
      simp only [process_checkout_completed, hv, hlk]
      simp

/-- Inversion of a successful validation: every guard of
`validate_checkout_session` held. -/
theorem validate_ok_inv (env : Env) (session : Session) (tid : Int) (src : String)
    (h : validate_checkout_session env session = .ok tid src) :
    src = "gcp-bot" ∧ session.metadata.isEmpty = false ∧
    (∃ t, metaGet session.metadata "telegram_id" = some t ∧ pyInt? t = some tid) ∧
    metaGet session.metadata "source" = some "gcp-bot" ∧ 0 < tid ∧
    (∀ c, session.customer = some c → c ≠ "" →
      ∃ cust, env.retrieveCustomer c = some cust ∧
        strTruthy (metaGet cust.metadata "telegram_id") = true ∧
        metaGet cust.metadata "telegram_id" = metaGet session.metadata "telegram_id") := by
  unfold validate_checkout_session at h
  by_cases hme : session.metadata.isEmpty = true
  · rw [if_pos hme] at h; exact absurd h (by simp)
  rw [if_neg hme] at h
  by_cases hti : (metaGet session.metadata "telegram_id").isNone = true
  · rw [if_pos hti] at h; exact absurd h (by simp)
  rw [if_neg hti] at h
  by_cases hsi : (metaGet session.metadata "source").isNone = true
  · rw [if_pos hsi] at h; exact absurd h (by simp)
  rw [if_neg hsi] at h
  by_cases hsv : metaGet session.metadata "source" ≠ some "gcp-bot"
  · rw [if_pos hsv] at h; exact absurd h (by simp)
  rw [if_neg hsv] at h
  push_neg at hsv
  rcases hb : (metaGet session.metadata "telegram_id").bind pyInt? with _ | tid0 <;>
    simp only [hb] at h
  · exact absurd h (by simp)
  by_cases hle : tid0 ≤ 0
  · rw [if_pos hle] at h; exact absurd h (by simp)
  rw [if_neg hle] at h
  have hparse : ∃ t, metaGet session.metadata "telegram_id" = some t ∧
      pyInt? t = some tid0 := by
    rcases hmg : metaGet session.metadata "telegram_id" with _ | t
    · rw [hmg] at hb; simp at hb
    · rw [hmg] at hb; exact ⟨t, rfl, by simpa using hb⟩
  by_cases hct : strTruthy session.customer = true
  · rw [if_pos hct] at h
    rcases hc : session.customer with _ | c <;> simp only [hc] at h
    · rw [hc] at hct; exact absurd hct (by simp [strTruthy])
    · rcases hrc : env.retrieveCustomer c with _ | cust <;> simp only [hrc] at h
      · exact absurd h (by simp)
      · by_cases hmt : ¬ strTruthy (metaGet cust.metadata "telegram_id") = true
        · rw [if_pos hmt] at h; exact absurd h (by simp)
        rw [if_neg hmt] at h
        push_neg at hmt
        by_cases hne : metaGet cust.metadata "telegram_id"
            ≠ metaGet session.metadata "telegram_id"
        · rw [if_pos hne] at h; exact absurd h (by simp)
        rw [if_neg hne] at h
        push_neg at hne
        injection h with h1 h2
        refine ⟨h2.symm, by simpa using hme, by rw [← h1]; exact hparse, hsv,
          by omega, ?_⟩
        intro c2 hc2 hcne
        injection hc2 with hc2
        subst hc2
        exact ⟨cust, hrc, hmt, hne⟩
  · rw [if_neg hct] at h
    injection h with h1 h2
    refine ⟨h2.symm, by simpa using hme, by rw [← h1]; exact hparse, hsv,
      by omega, ?_⟩
    intro c2 hc2 hcne
    rw [hc2] at hct
    exact absurd (by simp [strTruthy, hcne]) hct

/-- C8: the validator accepts exactly the contracted sessions — metadata
present and non-empty, `telegram_id` and `source` keys present, `source`
equal to the system's `gcp-bot` tag, `telegram_id` parsing as a positive
integer, and, whenever a (truthy) customer is referenced, a retrievable
customer whose own truthy `telegram_id` metadata equals the session's; on
success it returns that positive `telegram_id`, and on every rejection the
checkout handler performs no store mutation. -/
theorem validate_checkout_contract (env : Env) (session : Session) :
    (∀ tid src, validate_checkout_session env session = .ok tid src →
        0 < tid ∧ src = "gcp-bot" ∧
        (metaGet session.metadata "telegram_id").bind pyInt? = some tid) ∧
    ((∃ tid src, validate_checkout_session env session = .ok tid src) ↔
      (¬ session.metadata.isEmpty = true ∧
        (metaGet session.metadata "telegram_id").isSome = true ∧
        (metaGet session.metadata "source").isSome = true ∧
        metaGet session.metadata "source" = some "gcp-bot" ∧
        (∃ t tid, metaGet session.metadata "telegram_id" = some t ∧
          pyInt? t = some tid ∧ 0 < tid) ∧
        (∀ c, session.customer = some c → c ≠ "" →
          ∃ cust, env.retrieveCustomer c = some cust ∧
            strTruthy (metaGet cust.metadata "telegram_id") = true ∧
            metaGet cust.metadata "telegram_id"
              = metaGet session.metadata "telegram_id"))) ∧
    (∀ (localOff now : Int) (devMode : Bool) (st : Store) (e a : String),
        validate_checkout_session env session = .reject e a →
        (process_checkout_completed env localOff now devMode st session).2.1 = st) := by
  refine ⟨?_, ⟨?_, ?_⟩, ?_⟩
  · intro tid src hok
    obtain ⟨h1, h2, ⟨t, ht, hp⟩, h4, h5, h6⟩ := validate_ok_inv env session tid src hok
    exact ⟨h5, h1, by rw [ht]; simpa using hp⟩
  · rintro ⟨tid, src, hok⟩
    obtain ⟨h1, h2, ⟨t, ht, hp⟩, h4, h5, h6⟩ := validate_ok_inv env session tid src hok
    exact ⟨by simp [h2], by simp [ht], by simp [h4], h4, ⟨t, tid, ht, hp, h5⟩, h6⟩
  · rintro ⟨h1, h2, h3, h4, ⟨t, tid, ht, hp, hpos⟩, hc⟩
    refine ⟨tid, "gcp-bot", ?_⟩
    have hb : (metaGet session.metadata "telegram_id").bind pyInt? = some tid := by
      rw [ht]; simpa using hp
    unfold validate_checkout_session
    rw [if_neg h1, if_neg (by simp [ht]), if_neg (by simp [h4]),
      if_neg (by simp [h4])]
    simp only [hb]
    rw [if_neg (by omega)]
    by_cases hct : strTruthy session.customer = true
    · rw [if_pos hct]
      obtain ⟨c, hcc⟩ : ∃ c, session.customer = some c := by
        rcases hx : session.customer with _ | c
        · rw [hx] at hct; simp [strTruthy] at hct
        · exact ⟨c, rfl⟩
      have hcne : c ≠ "" := by
        rw [hcc] at hct; simpa [strTruthy] using hct
      obtain ⟨cust, hrc, hmt, hne⟩ := hc c hcc hcne
      have htne : t ≠ "" := by
        intro he
        rw [he] at hp
        have hz : pyInt? "" = none := rfl
        rw [hz] at hp
        cases hp
      simp [hcc, hrc, hmt, hne, ht, strTruthy, htne]
    · rw [if_neg hct]
  · intro localOff now devMode st e a hrej
    simp only [process_checkout_completed, hrej]
    split <;> rfl

/-- Witness for C8: applying the success contract to `sessionA`, which
validates to subscriber 42. -/
theorem validate_checkout_contract_witness :
    0 < (42 : Int) ∧ "gcp-bot" = "gcp-bot" ∧
      (metaGet sessionA.metadata "telegram_id").bind pyInt? = some 42 :=
  (validate_checkout_contract envA sessionA).1 42 "gcp-bot" (by decide)

end AMBetz
